import Mathlib

/-!
Shallow embedding of the 16-bit RISC CPU emulator core
(`src/emulator/memory.cpp`, `src/emulator/cpu.cpp` and the shared type
header): memory with the console write trap, ALU operations with flag
updates, and the fetch-decode-execute loop.  Machine words are `Nat`
with explicit reduction modulo `2^16` at the points where the C++ code
converts to `word_t`/`addr_t`/`byte_t`.
-/

/-! ## Memory map and flag constants (types header) -/

def MEMORY_SIZE : Nat := 0x10000

def PROGRAM_START : Nat := 0x0000

def STACK_END : Nat := 0xFFFF

def IO_CONSOLE_OUT : Nat := 0xF000

def NUM_REGISTERS : Nat := 8

def FLAG_ZERO : Nat := 0x0001

def FLAG_CARRY : Nat := 0x0002

def FLAG_NEGATIVE : Nat := 0x0004

def FLAG_OVERFLOW : Nat := 0x0008

/-! ## Instruction field extraction (macros of the types header) -/

def GET_OPCODE (instr : Nat) : Nat := (instr >>> 10) &&& 0x3F

def GET_RD (instr : Nat) : Nat := (instr >>> 7) &&& 0x07

def GET_RS (instr : Nat) : Nat := (instr >>> 4) &&& 0x07

def GET_RT (instr : Nat) : Nat := instr &&& 0x0F

def GET_IMM4 (instr : Nat) : Nat := instr &&& 0x0F

def GET_IMM7 (instr : Nat) : Nat := instr &&& 0x7F

/-- `sign_extend_4bit` of the types header; the result is the 16-bit
pattern that the `int16_t` return value denotes on conversion to
`word_t`. -/
def sign_extend_4bit (val : Nat) : Nat :=
  if val &&& 0x08 ≠ 0 then val ||| 0xFFF0 else val

/-- `sign_extend_7bit` of the types header, as a 16-bit pattern. -/
def sign_extend_7bit (val : Nat) : Nat :=
  if val &&& 0x40 ≠ 0 then val ||| 0xFF80 else val

/-! ## Memory (`memory.cpp`)

The backing byte array is a function from addresses to bytes; writes
store the low 8 bits (the `byte_t` parameter conversion) and addresses
are reduced modulo `2^16` (the `addr_t` parameter conversion).  Bytes
emitted through the console trap at `0xF000` are collected in `output`
in emission order. -/

structure Memory where
  data : Nat → Nat
  output : List Nat

/-- `Memory::Memory` / `Memory::clear`: all bytes zero. -/
def Memory.init : Memory := ⟨fun _ => 0, []⟩

/-- `Memory::read_byte`: return the backing byte. -/
def Memory.read_byte (m : Memory) (address : Nat) : Nat :=
  m.data (address % 65536)

/-- `Memory::write_byte`: console trap at `IO_CONSOLE_OUT`, otherwise
update the backing array. -/
def Memory.write_byte (m : Memory) (address value : Nat) : Memory :=
  if address % 65536 = IO_CONSOLE_OUT then
    { m with output := m.output ++ [value % 256] }
  else
    { m with data := fun x => if x = address % 65536 then value % 256 else m.data x }

/-- `Memory::read_word`: little-endian, low byte at the lower address. -/
def Memory.read_word (m : Memory) (address : Nat) : Nat :=
  let low := m.read_byte address
  let high := m.read_byte (address + 1)
  (high <<< 8) ||| low

/-- `Memory::write_word`: low byte first, then high byte at `address + 1`. -/
def Memory.write_word (m : Memory) (address value : Nat) : Memory :=
  (m.write_byte address (value &&& 0xFF)).write_byte (address + 1) ((value >>> 8) &&& 0xFF)

/-! ## Bridge lemmas between bit operations and arithmetic -/

theorem and_255_eq_mod (x : Nat) : x &&& 255 = x % 256 := by
  have h := Nat.and_pow_two_sub_one_eq_mod x 8
  norm_num at h
  exact h

theorem shiftRight_8_eq_div (x : Nat) : x >>> 8 = x / 256 := by
  have h := Nat.shiftRight_eq_div_pow x 8
  norm_num at h
  exact h

theorem or_low_byte (h l : Nat) (hl : l < 256) : (h <<< 8) ||| l = h * 256 + l := by
  have hl8 : l < 2 ^ 8 := by simpa using hl
  have hor := Nat.mul_add_lt_is_or hl8 h
  have hs : h <<< 8 = 2 ^ 8 * h := by
    rw [Nat.shiftLeft_eq]; ring
  rw [hs, ← hor]; ring

theorem byte_and_lt (x : Nat) : x &&& 255 < 256 :=
  Nat.lt_succ_of_le (Nat.and_le_right)

/-- Storing `v &&& 0xFF` then truncating to a byte changes nothing. -/
theorem byte_store_id (v : Nat) : (v &&& 255) % 256 = v &&& 255 :=
  Nat.mod_eq_of_lt (byte_and_lt v)

/-! ## ALU (`cpu.cpp`, `ALU::*`)

Each C++ operation takes `(a, b, &flags)` and first clears `flags`;
here the incoming flag word is an explicit argument and the new flag
word is returned alongside the result.  The `% 65536` at entry models
the `word_t` parameter conversion. -/

namespace ALU

/-- `ALU::clear_flags`: the flag word becomes 0. -/
def clear_flags (flags : Nat) : Nat := 0

/-- `ALU::set_zero_flag`. -/
def set_zero_flag (result flags : Nat) : Nat :=
  if result = 0 then flags ||| FLAG_ZERO else flags

/-- `ALU::set_negative_flag`: negative when bit 15 of the result is set. -/
def set_negative_flag (result flags : Nat) : Nat :=
  if result &&& 0x8000 ≠ 0 then flags ||| FLAG_NEGATIVE else flags

/-- `ALU::add`. -/
def add (a0 b0 flagsIn : Nat) : Nat × Nat :=
  let a := a0 % 65536
  let b := b0 % 65536
  let flags := clear_flags flagsIn
  let result32 := a + b
  let result := result32 % 65536
  let flags := if result32 > 0xFFFF then flags ||| FLAG_CARRY else flags
  let a_neg : Bool := a &&& 0x8000 != 0
  let b_neg : Bool := b &&& 0x8000 != 0
  let r_neg : Bool := result &&& 0x8000 != 0
  let flags := if (a_neg == b_neg) && (a_neg != r_neg) then flags ||| FLAG_OVERFLOW else flags
  let flags := set_zero_flag result flags
  let flags := set_negative_flag result flags
  (result, flags)

/-- `ALU::sub`: the `int32_t` difference cast back to `word_t` is the
difference modulo `2^16`. -/
def sub (a0 b0 flagsIn : Nat) : Nat × Nat :=
  let a := a0 % 65536
  let b := b0 % 65536
  let flags := clear_flags flagsIn
  let result := (a + 65536 - b) % 65536
  let flags := if a < b then flags ||| FLAG_CARRY else flags
  let a_neg : Bool := a &&& 0x8000 != 0
  let b_neg : Bool := b &&& 0x8000 != 0
  let r_neg : Bool := result &&& 0x8000 != 0
  let flags := if (a_neg != b_neg) && (a_neg != r_neg) then flags ||| FLAG_OVERFLOW else flags
  let flags := set_zero_flag result flags
  let flags := set_negative_flag result flags
  (result, flags)

/-- `ALU::mul`: low 16 bits of the 32-bit product. -/
def mul (a0 b0 flagsIn : Nat) : Nat × Nat :=
  let a := a0 % 65536
  let b := b0 % 65536
  let flags := clear_flags flagsIn
  let result32 := a * b
  let result := result32 &&& 0xFFFF
  let flags := if result32 > 0xFFFF then flags ||| FLAG_CARRY else flags
  let flags := set_zero_flag result flags
  let flags := set_negative_flag result flags
  (result, flags)

/-- `ALU::div`: on a zero divisor, set `FLAG_OVERFLOW` and return the
sentinel `0xFFFF` immediately (the zero/negative flag updates are
skipped by the early return). -/
def div (a0 b0 flagsIn : Nat) : Nat × Nat :=
  let a := a0 % 65536
  let b := b0 % 65536
  let flags := clear_flags flagsIn
  if b = 0 then
    (0xFFFF, flags ||| FLAG_OVERFLOW)
  else
    let result := a / b
    let flags := set_zero_flag result flags
    let flags := set_negative_flag result flags
    (result, flags)

/-- `ALU::and_op`. -/
def and_op (a0 b0 flagsIn : Nat) : Nat × Nat :=
  let a := a0 % 65536
  let b := b0 % 65536
  let flags := clear_flags flagsIn
  let result := a &&& b
  let flags := set_zero_flag result flags
  let flags := set_negative_flag result flags
  (result, flags)

/-- `ALU::or_op`. -/
def or_op (a0 b0 flagsIn : Nat) : Nat × Nat :=
  let a := a0 % 65536
  let b := b0 % 65536
  let flags := clear_flags flagsIn
  let result := a ||| b
  let flags := set_zero_flag result flags
  let flags := set_negative_flag result flags
  (result, flags)

/-- `ALU::xor_op`. -/
def xor_op (a0 b0 flagsIn : Nat) : Nat × Nat :=
  let a := a0 % 65536
  let b := b0 % 65536
  let flags := clear_flags flagsIn
  let result := a ^^^ b
  let flags := set_zero_flag result flags
  let flags := set_negative_flag result flags
  (result, flags)

/-- `ALU::not_op`: `(word_t)(~a)` is bitwise complement within 16 bits. -/
def not_op (a0 flagsIn : Nat) : Nat × Nat :=
  let a := a0 % 65536
  let flags := clear_flags flagsIn
  let result := a ^^^ 0xFFFF
  let flags := set_zero_flag result flags
  let flags := set_negative_flag result flags
  (result, flags)

/-- `ALU::shl`: logical shift left. -/
def shl (a0 shift0 flagsIn : Nat) : Nat × Nat :=
  let a := a0 % 65536
  let shift := shift0 % 65536
  let flags := clear_flags flagsIn
  if shift ≥ 16 then
    let flags := if shift = 16 ∧ a &&& 0x0001 ≠ 0 then flags ||| FLAG_CARRY else flags
    let flags := set_zero_flag 0 flags
    (0, flags)
  else
    let flags := if shift > 0 ∧ a &&& (1 <<< (16 - shift)) ≠ 0 then flags ||| FLAG_CARRY else flags
    let result := (a <<< shift) % 65536
    let flags := set_zero_flag result flags
    let flags := set_negative_flag result flags
    (result, flags)

/-- `ALU::shr`: logical shift right. -/
def shr (a0 shift0 flagsIn : Nat) : Nat × Nat :=
  let a := a0 % 65536
  let shift := shift0 % 65536
  let flags := clear_flags flagsIn
  if shift ≥ 16 then
    let flags := if shift = 16 ∧ a &&& 0x8000 ≠ 0 then flags ||| FLAG_CARRY else flags
    let flags := set_zero_flag 0 flags
    (0, flags)
  else
    let flags := if shift > 0 ∧ a &&& (1 <<< (shift - 1)) ≠ 0 then flags ||| FLAG_CARRY else flags
    let result := a >>> shift
    let flags := set_zero_flag result flags
    let flags := set_negative_flag result flags
    (result, flags)

/-- `ALU::compare`: subtraction for the flags only; the result is 0. -/
def compare (a0 b0 flagsIn : Nat) : Nat × Nat :=
  let p := sub a0 b0 flagsIn
  (0, p.2)

end ALU

/-! ## Opcode table

The header that assigns numeric `OP_*` values is not part of the
sources here; only `cpu.cpp` (which dispatches on the names) and the
spec's catalog are available.  The spec fixes `NOP` at 0x00 and calls
the remaining values an implementation detail shared by assembler and
emulator, so they are modelled as distinct 6-bit values in catalog
order. -/

/-- Modelled from the spec: opcode table (numeric `OP_*` header is missing);
`NOP` is 0x00, the rest are distinct values in catalog order. -/
def OP_NOP : Nat := 0

/-- Modelled from the spec: opcode table value for `MOVI`. -/
def OP_MOVI : Nat := 1

/-- Modelled from the spec: opcode table value for `LOAD_IND`. -/
def OP_LOAD_IND : Nat := 2

/-- Modelled from the spec: opcode table value for `LOAD_DIR`. -/
def OP_LOAD_DIR : Nat := 3

/-- Modelled from the spec: opcode table value for `STORE_IND`. -/
def OP_STORE_IND : Nat := 4

/-- Modelled from the spec: opcode table value for `STORE_DIR`. -/
def OP_STORE_DIR : Nat := 5

/-- Modelled from the spec: opcode table value for `ADD`. -/
def OP_ADD : Nat := 6

/-- Modelled from the spec: opcode table value for `ADDI`. -/
def OP_ADDI : Nat := 7

/-- Modelled from the spec: opcode table value for `SUB`. -/
def OP_SUB : Nat := 8

/-- Modelled from the spec: opcode table value for `SUBI`. -/
def OP_SUBI : Nat := 9

/-- Modelled from the spec: opcode table value for `MUL`. -/
def OP_MUL : Nat := 10

/-- Modelled from the spec: opcode table value for `DIV`. -/
def OP_DIV : Nat := 11

/-- Modelled from the spec: opcode table value for `INC`. -/
def OP_INC : Nat := 12

/-- Modelled from the spec: opcode table value for `DEC`. -/
def OP_DEC : Nat := 13

/-- Modelled from the spec: opcode table value for `AND`. -/
def OP_AND : Nat := 14

/-- Modelled from the spec: opcode table value for `ANDI`. -/
def OP_ANDI : Nat := 15

/-- Modelled from the spec: opcode table value for `OR`. -/
def OP_OR : Nat := 16

/-- Modelled from the spec: opcode table value for `ORI`. -/
def OP_ORI : Nat := 17

/-- Modelled from the spec: opcode table value for `XOR`. -/
def OP_XOR : Nat := 18

/-- Modelled from the spec: opcode table value for `NOT`. -/
def OP_NOT : Nat := 19

/-- Modelled from the spec: opcode table value for `SHL`. -/
def OP_SHL : Nat := 20

/-- Modelled from the spec: opcode table value for `SHLI`. -/
def OP_SHLI : Nat := 21

/-- Modelled from the spec: opcode table value for `SHR`. -/
def OP_SHR : Nat := 22

/-- Modelled from the spec: opcode table value for `SHRI`. -/
def OP_SHRI : Nat := 23

/-- Modelled from the spec: opcode table value for `CMP`. -/
def OP_CMP : Nat := 24

/-- Modelled from the spec: opcode table value for `CMPI`. -/
def OP_CMPI : Nat := 25

/-- Modelled from the spec: opcode table value for `JMP`. -/
def OP_JMP : Nat := 26

/-- Modelled from the spec: opcode table value for `JZ`. -/
def OP_JZ : Nat := 27

/-- Modelled from the spec: opcode table value for `JNZ`. -/
def OP_JNZ : Nat := 28

/-- Modelled from the spec: opcode table value for `JC`. -/
def OP_JC : Nat := 29

/-- Modelled from the spec: opcode table value for `JNC`. -/
def OP_JNC : Nat := 30

/-- Modelled from the spec: opcode table value for `JN`. -/
def OP_JN : Nat := 31

/-- Modelled from the spec: opcode table value for `CALL`. -/
def OP_CALL : Nat := 32

/-- Modelled from the spec: opcode table value for `RET`. -/
def OP_RET : Nat := 33

/-- Modelled from the spec: opcode table value for `PUSH`. -/
def OP_PUSH : Nat := 34

/-- Modelled from the spec: opcode table value for `POP`. -/
def OP_POP : Nat := 35

/-- Modelled from the spec: opcode table value for `HALT`. -/
def OP_HALT : Nat := 36

/-- The opcodes `cpu.cpp` dispatches on; everything else falls into the
`default` trap case. -/
def definedOpcodes : List Nat :=
  [OP_NOP, OP_MOVI, OP_LOAD_IND, OP_LOAD_DIR, OP_STORE_IND, OP_STORE_DIR,
   OP_ADD, OP_ADDI, OP_SUB, OP_SUBI, OP_MUL, OP_DIV, OP_INC, OP_DEC,
   OP_AND, OP_ANDI, OP_OR, OP_ORI, OP_XOR, OP_NOT,
   OP_SHL, OP_SHLI, OP_SHR, OP_SHRI, OP_CMP, OP_CMPI,
   OP_JMP, OP_JZ, OP_JNZ, OP_JC, OP_JNC, OP_JN,
   OP_CALL, OP_RET, OP_PUSH, OP_POP, OP_HALT]

/-! ## CPU (`cpu.cpp`)

The C++ `CPU` holds a reference to the `Memory`; here the memory is a
field of the state.  `pc` and `sp` are reduced modulo `2^16` whenever
the C++ `addr_t` arithmetic wraps.  The host-side debug printing of
`cpu.cpp` has no machine-visible effect and is not modelled. -/

structure CPU where
  registers : Nat → Nat
  pc : Nat
  sp : Nat
  flags : Nat
  halted : Bool
  instruction_count : Nat
  memory : Memory

/-- `CPU::reset`. -/
def CPU.reset (c : CPU) : CPU :=
  { c with registers := fun _ => 0, pc := PROGRAM_START, sp := STACK_END,
           flags := 0, halted := false, instruction_count := 0 }

/-- `CPU::CPU(Memory&)`: construct over a memory and reset. -/
def CPU.init (m : Memory) : CPU :=
  CPU.reset ⟨fun _ => 0, 0, 0, 0, false, 0, m⟩

/-- `CPU::get_register`: bounds-checked accessor; the C++ index is an
`int`, so it is taken here as an integer. -/
def CPU.get_register (c : CPU) (reg : Int) : Nat :=
  if 0 ≤ reg ∧ reg < NUM_REGISTERS then c.registers reg.toNat else 0

/-- `registers[rd] = value` for a 3-bit field index; the stored value is
a `word_t`. -/
def CPU.setReg (c : CPU) (i v : Nat) : CPU :=
  { c with registers := fun j => if j = i then v % 65536 else c.registers j }

/-- `CPU::push`: pre-decrement SP by 2 (16-bit wrap), then store. -/
def CPU.push (c : CPU) (value : Nat) : CPU :=
  let sp1 := (c.sp + 65534) % 65536
  { c with sp := sp1, memory := c.memory.write_word sp1 value }

/-- `CPU::pop`: read the word at SP, then post-increment SP by 2. -/
def CPU.pop (c : CPU) : Nat × CPU :=
  let value := c.memory.read_word c.sp
  (value, { c with sp := (c.sp + 2) % 65536 })

/-- `CPU::execute_instruction`: the opcode dispatch switch. -/
def CPU.execute_instruction (c : CPU) (instruction : Nat) : CPU :=
  if GET_OPCODE instruction = OP_NOP then
    if GET_RD instruction ≠ GET_RS instruction then
      c.setReg (GET_RD instruction) (c.registers (GET_RS instruction))
    else c
  else if GET_OPCODE instruction = OP_MOVI then
    c.setReg (GET_RD instruction) (sign_extend_7bit (GET_IMM7 instruction))
  else if GET_OPCODE instruction = OP_LOAD_IND then
    c.setReg (GET_RD instruction) (c.memory.read_word (c.registers (GET_RS instruction)))
  else if GET_OPCODE instruction = OP_LOAD_DIR then
    let address := c.memory.read_word c.pc
    let c1 := { c with pc := (c.pc + 2) % 65536 }
    c1.setReg (GET_RD instruction) (c1.memory.read_word address)
  else if GET_OPCODE instruction = OP_STORE_IND then
    { c with memory := c.memory.write_word (c.registers (GET_RD instruction))
                         (c.registers (GET_RS instruction)) }
  else if GET_OPCODE instruction = OP_STORE_DIR then
    let address := c.memory.read_word c.pc
    let c1 := { c with pc := (c.pc + 2) % 65536 }
    { c1 with memory := c1.memory.write_word address (c1.registers (GET_RS instruction)) }
  else if GET_OPCODE instruction = OP_ADD then
    let p := ALU.add (c.registers (GET_RS instruction)) (c.registers (GET_RT instruction)) c.flags
    { c.setReg (GET_RD instruction) p.1 with flags := p.2 }
  else if GET_OPCODE instruction = OP_ADDI then
    let p := ALU.add (c.registers (GET_RS instruction)) (sign_extend_4bit (GET_IMM4 instruction)) c.flags
    { c.setReg (GET_RD instruction) p.1 with flags := p.2 }
  else if GET_OPCODE instruction = OP_SUB then
    let p := ALU.sub (c.registers (GET_RS instruction)) (c.registers (GET_RT instruction)) c.flags
    { c.setReg (GET_RD instruction) p.1 with flags := p.2 }
  else if GET_OPCODE instruction = OP_SUBI then
    let p := ALU.sub (c.registers (GET_RS instruction)) (sign_extend_4bit (GET_IMM4 instruction)) c.flags
    { c.setReg (GET_RD instruction) p.1 with flags := p.2 }
  else if GET_OPCODE instruction = OP_MUL then
    let p := ALU.mul (c.registers (GET_RS instruction)) (c.registers (GET_RT instruction)) c.flags
    { c.setReg (GET_RD instruction) p.1 with flags := p.2 }
  else if GET_OPCODE instruction = OP_DIV then
    let p := ALU.div (c.registers (GET_RS instruction)) (c.registers (GET_RT instruction)) c.flags
    { c.setReg (GET_RD instruction) p.1 with flags := p.2 }
  else if GET_OPCODE instruction = OP_INC then
    let p := ALU.add (c.registers (GET_RD instruction)) 1 c.flags
    { c.setReg (GET_RD instruction) p.1 with flags := p.2 }
  else if GET_OPCODE instruction = OP_DEC then
    let p := ALU.sub (c.registers (GET_RD instruction)) 1 c.flags
    { c.setReg (GET_RD instruction) p.1 with flags := p.2 }
  else if GET_OPCODE instruction = OP_AND then
    let p := ALU.and_op (c.registers (GET_RS instruction)) (c.registers (GET_RT instruction)) c.flags
    { c.setReg (GET_RD instruction) p.1 with flags := p.2 }
  else if GET_OPCODE instruction = OP_ANDI then
    let p := ALU.and_op (c.registers (GET_RS instruction)) (GET_IMM4 instruction) c.flags
    { c.setReg (GET_RD instruction) p.1 with flags := p.2 }
  else if GET_OPCODE instruction = OP_OR then
    let p := ALU.or_op (c.registers (GET_RS instruction)) (c.registers (GET_RT instruction)) c.flags
    { c.setReg (GET_RD instruction) p.1 with flags := p.2 }
  else if GET_OPCODE instruction = OP_ORI then
    let p := ALU.or_op (c.registers (GET_RS instruction)) (GET_IMM4 instruction) c.flags
    { c.setReg (GET_RD instruction) p.1 with flags := p.2 }
  else if GET_OPCODE instruction = OP_XOR then
    let p := ALU.xor_op (c.registers (GET_RS instruction)) (c.registers (GET_RT instruction)) c.flags
    { c.setReg (GET_RD instruction) p.1 with flags := p.2 }
  else if GET_OPCODE instruction = OP_NOT then
    let p := ALU.not_op (c.registers (GET_RS instruction)) c.flags
    { c.setReg (GET_RD instruction) p.1 with flags := p.2 }
  else if GET_OPCODE instruction = OP_SHL then
    let p := ALU.shl (c.registers (GET_RS instruction)) (c.registers (GET_RT instruction)) c.flags
    { c.setReg (GET_RD instruction) p.1 with flags := p.2 }
  else if GET_OPCODE instruction = OP_SHLI then
    let p := ALU.shl (c.registers (GET_RS instruction)) (GET_IMM4 instruction) c.flags
    { c.setReg (GET_RD instruction) p.1 with flags := p.2 }
  else if GET_OPCODE instruction = OP_SHR then
    let p := ALU.shr (c.registers (GET_RS instruction)) (c.registers (GET_RT instruction)) c.flags
    { c.setReg (GET_RD instruction) p.1 with flags := p.2 }
  else if GET_OPCODE instruction = OP_SHRI then
    let p := ALU.shr (c.registers (GET_RS instruction)) (GET_IMM4 instruction) c.flags
    { c.setReg (GET_RD instruction) p.1 with flags := p.2 }
  else if GET_OPCODE instruction = OP_CMP then
    let p := ALU.compare (c.registers (GET_RS instruction)) (c.registers (GET_RT instruction)) c.flags
    { c with flags := p.2 }
  else if GET_OPCODE instruction = OP_CMPI then
    let p := ALU.compare (c.registers (GET_RS instruction)) (sign_extend_4bit (GET_IMM4 instruction)) c.flags
    { c with flags := p.2 }
  else if GET_OPCODE instruction = OP_JMP then
    { c with pc := c.memory.read_word c.pc }
  else if GET_OPCODE instruction = OP_JZ then
    let address := c.memory.read_word c.pc
    let c1 := { c with pc := (c.pc + 2) % 65536 }
    if c1.flags &&& FLAG_ZERO ≠ 0 then { c1 with pc := address } else c1
  else if GET_OPCODE instruction = OP_JNZ then
    let address := c.memory.read_word c.pc
    let c1 := { c with pc := (c.pc + 2) % 65536 }
    if ¬(c1.flags &&& FLAG_ZERO ≠ 0) then { c1 with pc := address } else c1
  else if GET_OPCODE instruction = OP_JC then
    let address := c.memory.read_word c.pc
    let c1 := { c with pc := (c.pc + 2) % 65536 }
    if c1.flags &&& FLAG_CARRY ≠ 0 then { c1 with pc := address } else c1
  else if GET_OPCODE instruction = OP_JNC then
    let address := c.memory.read_word c.pc
    let c1 := { c with pc := (c.pc + 2) % 65536 }
    if ¬(c1.flags &&& FLAG_CARRY ≠ 0) then { c1 with pc := address } else c1
  else if GET_OPCODE instruction = OP_JN then
    let address := c.memory.read_word c.pc
    let c1 := { c with pc := (c.pc + 2) % 65536 }
    if c1.flags &&& FLAG_NEGATIVE ≠ 0 then { c1 with pc := address } else c1
  else if GET_OPCODE instruction = OP_CALL then
    let address := c.memory.read_word c.pc
    let c1 := { c with pc := (c.pc + 2) % 65536 }
    let c2 := c1.push c1.pc
    { c2 with pc := address }
  else if GET_OPCODE instruction = OP_RET then
    let p := c.pop
    { p.2 with pc := p.1 }
  else if GET_OPCODE instruction = OP_PUSH then
    c.push (c.registers (GET_RS instruction))
  else if GET_OPCODE instruction = OP_POP then
    let p := c.pop
    p.2.setReg (GET_RD instruction) p.1
  else if GET_OPCODE instruction = OP_HALT then
    { c with halted := true }
  else
    { c with halted := true }

/-- `CPU::fetch_decode_execute`: fetch at PC, advance PC by 2, execute. -/
def CPU.fetch_decode_execute (c : CPU) : CPU :=
  let instruction := c.memory.read_word c.pc
  let c1 := { c with pc := (c.pc + 2) % 65536 }
  c1.execute_instruction instruction

/-- `CPU::step`: no-op when halted, otherwise one cycle plus the
instruction counter. -/
def CPU.step (c : CPU) : CPU :=
  if c.halted then c
  else
    let c1 := c.fetch_decode_execute
    { c1 with instruction_count := c1.instruction_count + 1 }

/-! ## Execution lemmas: one per dispatch case needed by the claims -/

theorem Memory.write_byte_data_of_ne (m : Memory) (a v : Nat)
    (h : a % 65536 ≠ IO_CONSOLE_OUT) :
    (m.write_byte a v).data = fun x => if x = a % 65536 then v % 256 else m.data x := by
  simp [Memory.write_byte, h]

theorem Memory.write_byte_output_of_ne (m : Memory) (a v : Nat)
    (h : a % 65536 ≠ IO_CONSOLE_OUT) :
    (m.write_byte a v).output = m.output := by
  simp [Memory.write_byte, h]

theorem Memory.read_byte_write_word_low (m : Memory) (a v : Nat)
    (h1 : a % 65536 ≠ IO_CONSOLE_OUT) (h2 : (a + 1) % 65536 ≠ IO_CONSOLE_OUT) :
    (m.write_word a v).read_byte a = v &&& 0xFF := by
  unfold Memory.write_word Memory.read_byte
  rw [Memory.write_byte_data_of_ne _ _ _ h2, Memory.write_byte_data_of_ne _ _ _ h1]
  have hne : a % 65536 ≠ (a + 1) % 65536 := by omega
  simp only [if_neg hne, if_pos rfl]
  exact byte_store_id v

theorem Memory.read_byte_write_word_high (m : Memory) (a v : Nat)
    (h1 : a % 65536 ≠ IO_CONSOLE_OUT) (h2 : (a + 1) % 65536 ≠ IO_CONSOLE_OUT) :
    (m.write_word a v).read_byte (a + 1) = (v >>> 8) &&& 0xFF := by
  unfold Memory.write_word Memory.read_byte
  rw [Memory.write_byte_data_of_ne _ _ _ h2]
  simp only [if_pos rfl]
  exact byte_store_id _

theorem Memory.read_word_write_word (m : Memory) (a v : Nat) (hv : v < 65536)
    (h1 : a % 65536 ≠ IO_CONSOLE_OUT) (h2 : (a + 1) % 65536 ≠ IO_CONSOLE_OUT) :
    (m.write_word a v).read_word a = v := by
  unfold Memory.read_word
  rw [Memory.read_byte_write_word_low _ _ _ h1 h2,
      Memory.read_byte_write_word_high _ _ _ h1 h2]
  rw [and_255_eq_mod, and_255_eq_mod, shiftRight_8_eq_div]
  have hlt : v % 256 < 256 := Nat.mod_lt _ (by norm_num)
  rw [or_low_byte _ _ hlt]
  omega

set_option maxHeartbeats 1000000 in
theorem CPU.exec_halt (c : CPU) (i : Nat) (h : GET_OPCODE i = OP_HALT) :
    c.execute_instruction i = { c with halted := true } := by
  unfold CPU.execute_instruction
  rw [h]
  norm_num [OP_NOP, OP_MOVI, OP_LOAD_IND, OP_LOAD_DIR, OP_STORE_IND, OP_STORE_DIR,
    OP_ADD, OP_ADDI, OP_SUB, OP_SUBI, OP_MUL, OP_DIV, OP_INC, OP_DEC,
    OP_AND, OP_ANDI, OP_OR, OP_ORI, OP_XOR, OP_NOT, OP_SHL, OP_SHLI, OP_SHR, OP_SHRI,
    OP_CMP, OP_CMPI, OP_JMP, OP_JZ, OP_JNZ, OP_JC, OP_JNC, OP_JN,
    OP_CALL, OP_RET, OP_PUSH, OP_POP, OP_HALT]

set_option maxHeartbeats 1000000 in
theorem CPU.exec_div_state (c : CPU) (i : Nat) (h : GET_OPCODE i = OP_DIV) :
    c.execute_instruction i =
      { c.setReg (GET_RD i)
          (ALU.div (c.registers (GET_RS i)) (c.registers (GET_RT i)) c.flags).1 with
        flags := (ALU.div (c.registers (GET_RS i)) (c.registers (GET_RT i)) c.flags).2 } := by
  unfold CPU.execute_instruction
  rw [h]
  norm_num [OP_NOP, OP_MOVI, OP_LOAD_IND, OP_LOAD_DIR, OP_STORE_IND, OP_STORE_DIR,
    OP_ADD, OP_ADDI, OP_SUB, OP_SUBI, OP_MUL, OP_DIV, OP_INC, OP_DEC,
    OP_AND, OP_ANDI, OP_OR, OP_ORI, OP_XOR, OP_NOT, OP_SHL, OP_SHLI, OP_SHR, OP_SHRI,
    OP_CMP, OP_CMPI, OP_JMP, OP_JZ, OP_JNZ, OP_JC, OP_JNC, OP_JN,
    OP_CALL, OP_RET, OP_PUSH, OP_POP, OP_HALT]

set_option maxHeartbeats 1000000 in
set_option maxRecDepth 8192 in
theorem CPU.exec_call (c : CPU) (i : Nat) (h : GET_OPCODE i = OP_CALL) :
    c.execute_instruction i =
      { c with pc := c.memory.read_word c.pc,
               sp := (c.sp + 65534) % 65536,
               memory := c.memory.write_word ((c.sp + 65534) % 65536) ((c.pc + 2) % 65536) } := by
  unfold CPU.execute_instruction
  rw [h]
  norm_num [OP_NOP, OP_MOVI, OP_LOAD_IND, OP_LOAD_DIR, OP_STORE_IND, OP_STORE_DIR,
    OP_ADD, OP_ADDI, OP_SUB, OP_SUBI, OP_MUL, OP_DIV, OP_INC, OP_DEC,
    OP_AND, OP_ANDI, OP_OR, OP_ORI, OP_XOR, OP_NOT, OP_SHL, OP_SHLI, OP_SHR, OP_SHRI,
    OP_CMP, OP_CMPI, OP_JMP, OP_JZ, OP_JNZ, OP_JC, OP_JNC, OP_JN,
    OP_CALL, OP_RET, OP_PUSH, OP_POP, OP_HALT]
  simp [CPU.push]

set_option maxHeartbeats 1000000 in
set_option maxRecDepth 8192 in
theorem CPU.exec_ret (c : CPU) (i : Nat) (h : GET_OPCODE i = OP_RET) :
    c.execute_instruction i =
      { c with pc := c.memory.read_word c.sp, sp := (c.sp + 2) % 65536 } := by
  unfold CPU.execute_instruction
  rw [h]
  norm_num [OP_NOP, OP_MOVI, OP_LOAD_IND, OP_LOAD_DIR, OP_STORE_IND, OP_STORE_DIR,
    OP_ADD, OP_ADDI, OP_SUB, OP_SUBI, OP_MUL, OP_DIV, OP_INC, OP_DEC,
    OP_AND, OP_ANDI, OP_OR, OP_ORI, OP_XOR, OP_NOT, OP_SHL, OP_SHLI, OP_SHR, OP_SHRI,
    OP_CMP, OP_CMPI, OP_JMP, OP_JZ, OP_JNZ, OP_JC, OP_JNC, OP_JN,
    OP_CALL, OP_RET, OP_PUSH, OP_POP, OP_HALT]
  simp [CPU.pop]

set_option maxHeartbeats 1000000 in
theorem CPU.exec_jz_taken (c : CPU) (i : Nat) (h : GET_OPCODE i = OP_JZ)
    (hf : c.flags &&& FLAG_ZERO ≠ 0) :
    c.execute_instruction i = { c with pc := c.memory.read_word c.pc } := by
  unfold CPU.execute_instruction
  rw [h]
  norm_num [OP_NOP, OP_MOVI, OP_LOAD_IND, OP_LOAD_DIR, OP_STORE_IND, OP_STORE_DIR,
    OP_ADD, OP_ADDI, OP_SUB, OP_SUBI, OP_MUL, OP_DIV, OP_INC, OP_DEC,
    OP_AND, OP_ANDI, OP_OR, OP_ORI, OP_XOR, OP_NOT, OP_SHL, OP_SHLI, OP_SHR, OP_SHRI,
    OP_CMP, OP_CMPI, OP_JMP, OP_JZ, OP_JNZ, OP_JC, OP_JNC, OP_JN,
    OP_CALL, OP_RET, OP_PUSH, OP_POP, OP_HALT, hf]

set_option maxHeartbeats 1000000 in
theorem CPU.exec_jz_fall (c : CPU) (i : Nat) (h : GET_OPCODE i = OP_JZ)
    (hf : c.flags &&& FLAG_ZERO = 0) :
    c.execute_instruction i = { c with pc := (c.pc + 2) % 65536 } := by
  unfold CPU.execute_instruction
  rw [h]
  norm_num [OP_NOP, OP_MOVI, OP_LOAD_IND, OP_LOAD_DIR, OP_STORE_IND, OP_STORE_DIR,
    OP_ADD, OP_ADDI, OP_SUB, OP_SUBI, OP_MUL, OP_DIV, OP_INC, OP_DEC,
    OP_AND, OP_ANDI, OP_OR, OP_ORI, OP_XOR, OP_NOT, OP_SHL, OP_SHLI, OP_SHR, OP_SHRI,
    OP_CMP, OP_CMPI, OP_JMP, OP_JZ, OP_JNZ, OP_JC, OP_JNC, OP_JN,
    OP_CALL, OP_RET, OP_PUSH, OP_POP, OP_HALT, hf]

set_option maxHeartbeats 1000000 in
theorem CPU.exec_jnz_taken (c : CPU) (i : Nat) (h : GET_OPCODE i = OP_JNZ)
    (hf : c.flags &&& FLAG_ZERO = 0) :
    c.execute_instruction i = { c with pc := c.memory.read_word c.pc } := by
  unfold CPU.execute_instruction
  rw [h]
  norm_num [OP_NOP, OP_MOVI, OP_LOAD_IND, OP_LOAD_DIR, OP_STORE_IND, OP_STORE_DIR,
    OP_ADD, OP_ADDI, OP_SUB, OP_SUBI, OP_MUL, OP_DIV, OP_INC, OP_DEC,
    OP_AND, OP_ANDI, OP_OR, OP_ORI, OP_XOR, OP_NOT, OP_SHL, OP_SHLI, OP_SHR, OP_SHRI,
    OP_CMP, OP_CMPI, OP_JMP, OP_JZ, OP_JNZ, OP_JC, OP_JNC, OP_JN,
    OP_CALL, OP_RET, OP_PUSH, OP_POP, OP_HALT, hf]

set_option maxHeartbeats 1000000 in
theorem CPU.exec_jnz_fall (c : CPU) (i : Nat) (h : GET_OPCODE i = OP_JNZ)
    (hf : c.flags &&& FLAG_ZERO ≠ 0) :
    c.execute_instruction i = { c with pc := (c.pc + 2) % 65536 } := by
  unfold CPU.execute_instruction
  rw [h]
  norm_num [OP_NOP, OP_MOVI, OP_LOAD_IND, OP_LOAD_DIR, OP_STORE_IND, OP_STORE_DIR,
    OP_ADD, OP_ADDI, OP_SUB, OP_SUBI, OP_MUL, OP_DIV, OP_INC, OP_DEC,
    OP_AND, OP_ANDI, OP_OR, OP_ORI, OP_XOR, OP_NOT, OP_SHL, OP_SHLI, OP_SHR, OP_SHRI,
    OP_CMP, OP_CMPI, OP_JMP, OP_JZ, OP_JNZ, OP_JC, OP_JNC, OP_JN,
    OP_CALL, OP_RET, OP_PUSH, OP_POP, OP_HALT, hf]

set_option maxHeartbeats 1000000 in
theorem CPU.exec_jc_taken (c : CPU) (i : Nat) (h : GET_OPCODE i = OP_JC)
    (hf : c.flags &&& FLAG_CARRY ≠ 0) :
    c.execute_instruction i = { c with pc := c.memory.read_word c.pc } := by
  unfold CPU.execute_instruction
  rw [h]
  norm_num [OP_NOP, OP_MOVI, OP_LOAD_IND, OP_LOAD_DIR, OP_STORE_IND, OP_STORE_DIR,
    OP_ADD, OP_ADDI, OP_SUB, OP_SUBI, OP_MUL, OP_DIV, OP_INC, OP_DEC,
    OP_AND, OP_ANDI, OP_OR, OP_ORI, OP_XOR, OP_NOT, OP_SHL, OP_SHLI, OP_SHR, OP_SHRI,
    OP_CMP, OP_CMPI, OP_JMP, OP_JZ, OP_JNZ, OP_JC, OP_JNC, OP_JN,
    OP_CALL, OP_RET, OP_PUSH, OP_POP, OP_HALT, hf]

set_option maxHeartbeats 1000000 in
theorem CPU.exec_jc_fall (c : CPU) (i : Nat) (h : GET_OPCODE i = OP_JC)
    (hf : c.flags &&& FLAG_CARRY = 0) :
    c.execute_instruction i = { c with pc := (c.pc + 2) % 65536 } := by
  unfold CPU.execute_instruction
  rw [h]
  norm_num [OP_NOP, OP_MOVI, OP_LOAD_IND, OP_LOAD_DIR, OP_STORE_IND, OP_STORE_DIR,
    OP_ADD, OP_ADDI, OP_SUB, OP_SUBI, OP_MUL, OP_DIV, OP_INC, OP_DEC,
    OP_AND, OP_ANDI, OP_OR, OP_ORI, OP_XOR, OP_NOT, OP_SHL, OP_SHLI, OP_SHR, OP_SHRI,
    OP_CMP, OP_CMPI, OP_JMP, OP_JZ, OP_JNZ, OP_JC, OP_JNC, OP_JN,
    OP_CALL, OP_RET, OP_PUSH, OP_POP, OP_HALT, hf]

set_option maxHeartbeats 1000000 in
theorem CPU.exec_jnc_taken (c : CPU) (i : Nat) (h : GET_OPCODE i = OP_JNC)
    (hf : c.flags &&& FLAG_CARRY = 0) :
    c.execute_instruction i = { c with pc := c.memory.read_word c.pc } := by
  unfold CPU.execute_instruction
  rw [h]
  norm_num [OP_NOP, OP_MOVI, OP_LOAD_IND, OP_LOAD_DIR, OP_STORE_IND, OP_STORE_DIR,
    OP_ADD, OP_ADDI, OP_SUB, OP_SUBI, OP_MUL, OP_DIV, OP_INC, OP_DEC,
    OP_AND, OP_ANDI, OP_OR, OP_ORI, OP_XOR, OP_NOT, OP_SHL, OP_SHLI, OP_SHR, OP_SHRI,
    OP_CMP, OP_CMPI, OP_JMP, OP_JZ, OP_JNZ, OP_JC, OP_JNC, OP_JN,
    OP_CALL, OP_RET, OP_PUSH, OP_POP, OP_HALT, hf]

set_option maxHeartbeats 1000000 in
theorem CPU.exec_jnc_fall (c : CPU) (i : Nat) (h : GET_OPCODE i = OP_JNC)
    (hf : c.flags &&& FLAG_CARRY ≠ 0) :
    c.execute_instruction i = { c with pc := (c.pc + 2) % 65536 } := by
  unfold CPU.execute_instruction
  rw [h]
  norm_num [OP_NOP, OP_MOVI, OP_LOAD_IND, OP_LOAD_DIR, OP_STORE_IND, OP_STORE_DIR,
    OP_ADD, OP_ADDI, OP_SUB, OP_SUBI, OP_MUL, OP_DIV, OP_INC, OP_DEC,
    OP_AND, OP_ANDI, OP_OR, OP_ORI, OP_XOR, OP_NOT, OP_SHL, OP_SHLI, OP_SHR, OP_SHRI,
    OP_CMP, OP_CMPI, OP_JMP, OP_JZ, OP_JNZ, OP_JC, OP_JNC, OP_JN,
    OP_CALL, OP_RET, OP_PUSH, OP_POP, OP_HALT, hf]

set_option maxHeartbeats 1000000 in
theorem CPU.exec_jn_taken (c : CPU) (i : Nat) (h : GET_OPCODE i = OP_JN)
    (hf : c.flags &&& FLAG_NEGATIVE ≠ 0) :
    c.execute_instruction i = { c with pc := c.memory.read_word c.pc } := by
  unfold CPU.execute_instruction
  rw [h]
  norm_num [OP_NOP, OP_MOVI, OP_LOAD_IND, OP_LOAD_DIR, OP_STORE_IND, OP_STORE_DIR,
    OP_ADD, OP_ADDI, OP_SUB, OP_SUBI, OP_MUL, OP_DIV, OP_INC, OP_DEC,
    OP_AND, OP_ANDI, OP_OR, OP_ORI, OP_XOR, OP_NOT, OP_SHL, OP_SHLI, OP_SHR, OP_SHRI,
    OP_CMP, OP_CMPI, OP_JMP, OP_JZ, OP_JNZ, OP_JC, OP_JNC, OP_JN,
    OP_CALL, OP_RET, OP_PUSH, OP_POP, OP_HALT, hf]

set_option maxHeartbeats 1000000 in
theorem CPU.exec_jn_fall (c : CPU) (i : Nat) (h : GET_OPCODE i = OP_JN)
    (hf : c.flags &&& FLAG_NEGATIVE = 0) :
    c.execute_instruction i = { c with pc := (c.pc + 2) % 65536 } := by
  unfold CPU.execute_instruction
  rw [h]
  norm_num [OP_NOP, OP_MOVI, OP_LOAD_IND, OP_LOAD_DIR, OP_STORE_IND, OP_STORE_DIR,
    OP_ADD, OP_ADDI, OP_SUB, OP_SUBI, OP_MUL, OP_DIV, OP_INC, OP_DEC,
    OP_AND, OP_ANDI, OP_OR, OP_ORI, OP_XOR, OP_NOT, OP_SHL, OP_SHLI, OP_SHR, OP_SHRI,
    OP_CMP, OP_CMPI, OP_JMP, OP_JZ, OP_JNZ, OP_JC, OP_JNC, OP_JN,
    OP_CALL, OP_RET, OP_PUSH, OP_POP, OP_HALT, hf]

set_option maxHeartbeats 1000000 in
set_option maxRecDepth 8192 in
theorem CPU.exec_unknown (c : CPU) (i : Nat) (h : 36 < GET_OPCODE i) :
    c.execute_instruction i = { c with halted := true } := by
  have hne : ∀ k : Nat, k < 37 → ¬ (GET_OPCODE i = k) := by omega
  unfold CPU.execute_instruction
  norm_num [OP_NOP, OP_MOVI, OP_LOAD_IND, OP_LOAD_DIR, OP_STORE_IND, OP_STORE_DIR,
    OP_ADD, OP_ADDI, OP_SUB, OP_SUBI, OP_MUL, OP_DIV, OP_INC, OP_DEC,
    OP_AND, OP_ANDI, OP_OR, OP_ORI, OP_XOR, OP_NOT, OP_SHL, OP_SHLI, OP_SHR, OP_SHRI,
    OP_CMP, OP_CMPI, OP_JMP, OP_JZ, OP_JNZ, OP_JC, OP_JNC, OP_JN,
    OP_CALL, OP_RET, OP_PUSH, OP_POP, OP_HALT,
    hne 0 (by norm_num), hne 1 (by norm_num), hne 2 (by norm_num), hne 3 (by norm_num), hne 4 (by norm_num), hne 5 (by norm_num), hne 6 (by norm_num), hne 7 (by norm_num), hne 8 (by norm_num), hne 9 (by norm_num), hne 10 (by norm_num), hne 11 (by norm_num), hne 12 (by norm_num), hne 13 (by norm_num), hne 14 (by norm_num), hne 15 (by norm_num), hne 16 (by norm_num), hne 17 (by norm_num), hne 18 (by norm_num), hne 19 (by norm_num), hne 20 (by norm_num), hne 21 (by norm_num), hne 22 (by norm_num), hne 23 (by norm_num), hne 24 (by norm_num), hne 25 (by norm_num), hne 26 (by norm_num), hne 27 (by norm_num), hne 28 (by norm_num), hne 29 (by norm_num), hne 30 (by norm_num), hne 31 (by norm_num), hne 32 (by norm_num), hne 33 (by norm_num), hne 34 (by norm_num), hne 35 (by norm_num), hne 36 (by norm_num)]

theorem CPU.step_eq (c : CPU) (h : c.halted = false) :
    c.step =
      { ({ c with pc := (c.pc + 2) % 65536 }).execute_instruction (c.memory.read_word c.pc) with
        instruction_count :=
          (({ c with pc := (c.pc + 2) % 65536 }).execute_instruction
            (c.memory.read_word c.pc)).instruction_count + 1 } := by
  simp [CPU.step, CPU.fetch_decode_execute, h]

/-! ## Shared concrete states for witnesses -/

/-- An all-zero machine: reset CPU over cleared memory. -/
def zeroCPU : CPU := CPU.init Memory.init

/-- The S1 program: `HALT` at 0x0000. -/
def haltMem : Memory := Memory.init.write_word 0 (OP_HALT <<< 10)

/-- A `CALL 0x0010` at 0x0000 with `RET` at 0x0010. -/
def callMem : Memory :=
  ((Memory.init.write_word 0 (OP_CALL <<< 10)).write_word 2 0x0010).write_word
    0x10 (OP_RET <<< 10)

/-- A `JZ 0x0040` at 0x0000. -/
def jzMem : Memory := (Memory.init.write_word 0 (OP_JZ <<< 10)).write_word 2 0x0040

/-- A program whose first word decodes to the undefined opcode 0x3F. -/
def badMem : Memory := Memory.init.write_word 0 (63 <<< 10)

/-! ## C7: ALU flag determinism -/

/-- C7: for every ALU operation the (result, flags) pair depends only on
the operands: two calls with the same operands and different incoming
flag words agree (each operation clears the flag word on entry). -/
theorem alu_flag_determinism :
    ∀ a b f1 f2 : Nat,
      ALU.add a b f1 = ALU.add a b f2 ∧
      ALU.sub a b f1 = ALU.sub a b f2 ∧
      ALU.mul a b f1 = ALU.mul a b f2 ∧
      ALU.div a b f1 = ALU.div a b f2 ∧
      ALU.and_op a b f1 = ALU.and_op a b f2 ∧
      ALU.or_op a b f1 = ALU.or_op a b f2 ∧
      ALU.xor_op a b f1 = ALU.xor_op a b f2 ∧
      ALU.not_op a f1 = ALU.not_op a f2 ∧
      ALU.shl a b f1 = ALU.shl a b f2 ∧
      ALU.shr a b f1 = ALU.shr a b f2 ∧
      ALU.compare a b f1 = ALU.compare a b f2 :=
  fun _ _ _ _ => ⟨rfl, rfl, rfl, rfl, rfl, rfl, rfl, rfl, rfl, rfl, rfl⟩

/-! ## C1: division by zero -/

/-- C1 counterexample: at dividend 0x1234 and divisor 0, the claim says
the flags are V=1, Z=0, N=1; the code returns flags with the N bit
clear (the early return skips the Z/N update from the sentinel). -/
theorem div_by_zero_flags_counterexample :
    (ALU.div 0x1234 0x0000 0).1 = 0xFFFF ∧
    (ALU.div 0x1234 0x0000 0).2 &&& FLAG_NEGATIVE = 0 ∧
    (ALU.div 0x1234 0x0000 0).2 &&& FLAG_OVERFLOW ≠ 0 := by decide

/-- C1 amended: a zero divisor yields result 0xFFFF with flag word
exactly `FLAG_OVERFLOW` (V=1, Z=0, N=0 — Z/N are not recomputed from
the sentinel), and executing `DIV` never changes the halted state. -/
theorem div_by_zero_amended :
    ∀ a f : Nat,
      (ALU.div a 0 f = (0xFFFF, FLAG_OVERFLOW) ∧
       FLAG_OVERFLOW &&& FLAG_OVERFLOW ≠ 0 ∧
       FLAG_OVERFLOW &&& FLAG_ZERO = 0 ∧
       FLAG_OVERFLOW &&& FLAG_NEGATIVE = 0) ∧
      (∀ (c : CPU) (i : Nat), GET_OPCODE i = OP_DIV →
        (c.execute_instruction i).halted = c.halted) := by
  intro a f
  refine ⟨⟨?_, by decide, by decide, by decide⟩, ?_⟩
  · simp [ALU.div, ALU.clear_flags, FLAG_OVERFLOW]
  · intro c i h
    rw [CPU.exec_div_state c i h]
    simp [CPU.setReg]

/-- C1 witness: the amended theorem applied at dividend 0x1234 and at a
concrete CPU executing a `DIV` instruction word. -/
theorem div_by_zero_amended_witness :
    ALU.div 0x1234 0 0 = (0xFFFF, FLAG_OVERFLOW) ∧
    (zeroCPU.execute_instruction (OP_DIV <<< 10)).halted = zeroCPU.halted :=
  ⟨(div_by_zero_amended 0x1234 0).1.1,
   (div_by_zero_amended 0x1234 0).2 zeroCPU (OP_DIV <<< 10) (by decide)⟩

/-! ## C8: shift left by zero -/

/-- C8 counterexample: the claim says SHL with count 0 clears all
flags, but on input 0x8000 the code sets the N flag from the unchanged
result (and on input 0 it sets Z). -/
theorem shl_zero_count_counterexample :
    ALU.shl 0x8000 0 0 = (0x8000, FLAG_NEGATIVE) ∧ FLAG_NEGATIVE ≠ 0 := by decide

/-- C8 amended: SHL with count 0 returns the input unchanged with C and
V clear, while Z and N are set from the (unchanged) result rather than
cleared unconditionally. -/
theorem shl_zero_count_amended :
    ∀ a f : Nat, a < 65536 →
      (ALU.shl a 0 f).1 = a ∧
      (ALU.shl a 0 f).2 &&& FLAG_CARRY = 0 ∧
      (ALU.shl a 0 f).2 &&& FLAG_OVERFLOW = 0 ∧
      ((ALU.shl a 0 f).2 &&& FLAG_ZERO ≠ 0 ↔ a = 0) ∧
      ((ALU.shl a 0 f).2 &&& FLAG_NEGATIVE ≠ 0 ↔ a &&& 0x8000 ≠ 0) := by
  intro a f ha
  have hmod : a % 65536 = a := Nat.mod_eq_of_lt ha
  simp only [ALU.shl, ALU.clear_flags, ALU.set_zero_flag, ALU.set_negative_flag, hmod]
  norm_num
  by_cases hz : a = 0 <;> by_cases hn : a &&& 0x8000 = 0 <;>
    simp [hz, hn, hmod, FLAG_ZERO, FLAG_CARRY, FLAG_NEGATIVE, FLAG_OVERFLOW] <;>
      first | omega | exact ⟨ha, by decide, by decide⟩

/-- C8 witness: the amended theorem applied at a = 0x8001. -/
theorem shl_zero_count_amended_witness :
    (ALU.shl 0x8001 0 0).1 = 0x8001 ∧
    (ALU.shl 0x8001 0 0).2 &&& FLAG_CARRY = 0 ∧
    (ALU.shl 0x8001 0 0).2 &&& FLAG_OVERFLOW = 0 ∧
    ((ALU.shl 0x8001 0 0).2 &&& FLAG_ZERO ≠ 0 ↔ (0x8001 : Nat) = 0) ∧
    ((ALU.shl 0x8001 0 0).2 &&& FLAG_NEGATIVE ≠ 0 ↔ (0x8001 : Nat) &&& 0x8000 ≠ 0) :=
  shl_zero_count_amended 0x8001 0 (by norm_num)

/-! ## C3: console isolation -/

/-- C3 counterexample: the claim also asserts that a read after the
console write does not return `v`; when the prior backing byte already
equals `v` (here both 0) the read does return `v`. -/
theorem console_prior_byte_counterexample :
    ¬ ((Memory.init.write_byte 0xF000 0).read_byte 0xF000 ≠ 0) := by decide

/-- C3 amended: a byte write to 0xF000 leaves the entire backing array
(in particular the byte at 0xF000) unchanged, so a subsequent read of
0xF000 returns the prior backing byte (which differs from `v` whenever
the prior byte differed from `v`); the written byte goes to the console
output instead. -/
theorem console_write_isolation_amended :
    ∀ (m : Memory) (v : Nat),
      (m.write_byte 0xF000 v).read_byte 0xF000 = m.read_byte 0xF000 ∧
      (∀ a : Nat, (m.write_byte 0xF000 v).data a = m.data a) ∧
      (m.write_byte 0xF000 v).output = m.output ++ [v % 256] := by
  intro m v
  refine ⟨?_, ?_, ?_⟩ <;> simp [Memory.write_byte, Memory.read_byte, IO_CONSOLE_OUT]

/-! ## C2: little-endian round trip -/

/-- C2 counterexample: the round trip is claimed for every 16-bit
address, but at the console port 0xF000 the low byte is not stored:
reading back gives 0, not `W &&& 0xFF` = 1. -/
theorem little_endian_console_counterexample :
    (Memory.init.write_word 0xF000 0x0101).read_byte 0xF000 = 0 ∧
    (0x0101 : Nat) &&& 0xFF = 1 := by decide

/-- C2 amended: for every memory, word and address whose two byte cells
avoid the console port 0xF000, writing W at A then reading byte A gives
`W &&& 0xFF` and reading byte A+1 gives `(W >>> 8) &&& 0xFF`. -/
theorem little_endian_roundtrip_amended :
    ∀ (m : Memory) (A W : Nat),
      A % 65536 ≠ 0xF000 → (A + 1) % 65536 ≠ 0xF000 →
      (m.write_word A W).read_byte A = W &&& 0xFF ∧
      (m.write_word A W).read_byte (A + 1) = (W >>> 8) &&& 0xFF := by
  intro m A W h1 h2
  have h1' : A % 65536 ≠ IO_CONSOLE_OUT := by simpa [IO_CONSOLE_OUT] using h1
  have h2' : (A + 1) % 65536 ≠ IO_CONSOLE_OUT := by simpa [IO_CONSOLE_OUT] using h2
  exact ⟨Memory.read_byte_write_word_low m A W h1' h2',
         Memory.read_byte_write_word_high m A W h1' h2'⟩

/-- C2 witness: the amended round trip at address 0x8004 and word 0xBEEF. -/
theorem little_endian_roundtrip_witness :
    (Memory.init.write_word 0x8004 0xBEEF).read_byte 0x8004 = 0xBEEF &&& 0xFF ∧
    (Memory.init.write_word 0x8004 0xBEEF).read_byte (0x8004 + 1) =
      (0xBEEF >>> 8) &&& 0xFF :=
  little_endian_roundtrip_amended Memory.init 0x8004 0xBEEF (by decide) (by decide)

/-! ## C10: register accessor bounds -/

/-- C10: `get_register` returns 0 for every index outside 0..7 and the
stored register value for indices 0..7. -/
theorem get_register_bounds :
    ∀ (c : CPU) (reg : Int),
      ((reg < 0 ∨ (8 : Int) ≤ reg) → c.get_register reg = 0) ∧
      (0 ≤ reg → reg < 8 → c.get_register reg = c.registers reg.toNat) := by
  intro c reg
  constructor
  · intro h
    have hc : ¬ (0 ≤ reg ∧ reg < (NUM_REGISTERS : Nat)) := by
      simp only [NUM_REGISTERS]
      push_cast
      omega
    simp [CPU.get_register, hc]
  · intro h1 h2
    have hc : 0 ≤ reg ∧ reg < (NUM_REGISTERS : Nat) := by
      simp only [NUM_REGISTERS]
      push_cast
      omega
    simp [CPU.get_register, hc]

/-- C10 witness: indices 9 and -1 read as 0, index 3 reads the register
array. -/
theorem get_register_bounds_witness :
    zeroCPU.get_register 9 = 0 ∧
    zeroCPU.get_register (-1) = 0 ∧
    zeroCPU.get_register 3 = zeroCPU.registers (Int.toNat 3) :=
  ⟨(get_register_bounds zeroCPU 9).1 (Or.inr (by norm_num)),
   (get_register_bounds zeroCPU (-1)).1 (Or.inl (by norm_num)),
   (get_register_bounds zeroCPU 3).2 (by norm_num) (by norm_num)⟩

/-! ## C5: HALT semantics -/

/-- C5: a `HALT`-only program halts after one step with PC = 0x0002 and
instruction count 1; executing `HALT` generally sets halted with PC
advanced 2 past it; and a step on a halted CPU changes nothing. -/
theorem halt_semantics :
    ((CPU.init haltMem).step.halted = true ∧
     (CPU.init haltMem).step.instruction_count = 1 ∧
     (CPU.init haltMem).step.pc = 2) ∧
    (∀ c : CPU, c.halted = true → c.step = c) ∧
    (∀ c : CPU, c.halted = false →
      GET_OPCODE (c.memory.read_word c.pc) = OP_HALT →
      c.step = { c with halted := true, pc := (c.pc + 2) % 65536,
                         instruction_count := c.instruction_count + 1 }) := by
  refine ⟨⟨by decide, by decide, by decide⟩, ?_, ?_⟩
  · intro c h
    simp [CPU.step, h]
  · intro c h hop
    rw [CPU.step_eq c h, CPU.exec_halt _ _ hop]

/-- C5 witness: one more step on the halted machine is the identity. -/
theorem halt_semantics_witness :
    ({ zeroCPU with halted := true } : CPU).step = { zeroCPU with halted := true } :=
  halt_semantics.2.1 { zeroCPU with halted := true } rfl

/-! ## C9: unknown opcode trap -/

/-- C9: an opcode outside the dispatch table halts the CPU as a defined
trap: the step completes, PC has advanced by 2, the instruction counter
ticks, and registers, SP, FLAGS and memory are unchanged. -/
theorem unknown_opcode_trap :
    ∀ c : CPU, c.halted = false →
      GET_OPCODE (c.memory.read_word c.pc) ∉ definedOpcodes →
      c.step = { c with halted := true, pc := (c.pc + 2) % 65536,
                         instruction_count := c.instruction_count + 1 } := by
  intro c h hmem
  have hgt : 36 < GET_OPCODE (c.memory.read_word c.pc) := by
    simp [definedOpcodes, OP_NOP, OP_MOVI, OP_LOAD_IND, OP_LOAD_DIR, OP_STORE_IND,
      OP_STORE_DIR, OP_ADD, OP_ADDI, OP_SUB, OP_SUBI, OP_MUL, OP_DIV, OP_INC, OP_DEC,
      OP_AND, OP_ANDI, OP_OR, OP_ORI, OP_XOR, OP_NOT, OP_SHL, OP_SHLI, OP_SHR, OP_SHRI,
      OP_CMP, OP_CMPI, OP_JMP, OP_JZ, OP_JNZ, OP_JC, OP_JNC, OP_JN,
      OP_CALL, OP_RET, OP_PUSH, OP_POP, OP_HALT] at hmem
    omega
  rw [CPU.step_eq c h, CPU.exec_unknown _ _ hgt]

/-- C9 witness: the trap applied to a program whose first word decodes
to opcode 0x3F. -/
theorem unknown_opcode_trap_witness :
    (CPU.init badMem).step =
      { CPU.init badMem with halted := true, pc := 2, instruction_count := 1 } :=
  unknown_opcode_trap (CPU.init badMem) rfl (by decide)

/-! ## C6: conditional jump semantics -/

/-- C6: every conditional jump consumes its trailing address word; when
its predicate is false the step leaves PC exactly 4 past the jump with
registers, flags, memory and SP unchanged, and when the predicate is
true PC becomes the trailing address word. -/
theorem cond_jump_semantics :
    ∀ c : CPU, c.halted = false →
      ((GET_OPCODE (c.memory.read_word c.pc) = OP_JZ →
        (c.flags &&& FLAG_ZERO = 0 →
          c.step.pc = (c.pc + 4) % 65536 ∧ c.step.registers = c.registers ∧
          c.step.flags = c.flags ∧ c.step.memory = c.memory ∧ c.step.sp = c.sp) ∧
        (c.flags &&& FLAG_ZERO ≠ 0 →
          c.step.pc = c.memory.read_word ((c.pc + 2) % 65536))) ∧
       (GET_OPCODE (c.memory.read_word c.pc) = OP_JNZ →
        (c.flags &&& FLAG_ZERO ≠ 0 →
          c.step.pc = (c.pc + 4) % 65536 ∧ c.step.registers = c.registers ∧
          c.step.flags = c.flags ∧ c.step.memory = c.memory ∧ c.step.sp = c.sp) ∧
        (c.flags &&& FLAG_ZERO = 0 →
          c.step.pc = c.memory.read_word ((c.pc + 2) % 65536))) ∧
       (GET_OPCODE (c.memory.read_word c.pc) = OP_JC →
        (c.flags &&& FLAG_CARRY = 0 →
          c.step.pc = (c.pc + 4) % 65536 ∧ c.step.registers = c.registers ∧
          c.step.flags = c.flags ∧ c.step.memory = c.memory ∧ c.step.sp = c.sp) ∧
        (c.flags &&& FLAG_CARRY ≠ 0 →
          c.step.pc = c.memory.read_word ((c.pc + 2) % 65536))) ∧
       (GET_OPCODE (c.memory.read_word c.pc) = OP_JNC →
        (c.flags &&& FLAG_CARRY ≠ 0 →
          c.step.pc = (c.pc + 4) % 65536 ∧ c.step.registers = c.registers ∧
          c.step.flags = c.flags ∧ c.step.memory = c.memory ∧ c.step.sp = c.sp) ∧
        (c.flags &&& FLAG_CARRY = 0 →
          c.step.pc = c.memory.read_word ((c.pc + 2) % 65536))) ∧
       (GET_OPCODE (c.memory.read_word c.pc) = OP_JN →
        (c.flags &&& FLAG_NEGATIVE = 0 →
          c.step.pc = (c.pc + 4) % 65536 ∧ c.step.registers = c.registers ∧
          c.step.flags = c.flags ∧ c.step.memory = c.memory ∧ c.step.sp = c.sp) ∧
        (c.flags &&& FLAG_NEGATIVE ≠ 0 →
          c.step.pc = c.memory.read_word ((c.pc + 2) % 65536)))) := by
  intro c h
  refine ⟨fun hop => ⟨fun hf => ?_, fun hf => ?_⟩,
          fun hop => ⟨fun hf => ?_, fun hf => ?_⟩,
          fun hop => ⟨fun hf => ?_, fun hf => ?_⟩,
          fun hop => ⟨fun hf => ?_, fun hf => ?_⟩,
          fun hop => ⟨fun hf => ?_, fun hf => ?_⟩⟩
  · rw [CPU.step_eq c h, CPU.exec_jz_fall { c with pc := (c.pc + 2) % 65536 } (c.memory.read_word c.pc) hop hf]
    exact ⟨by show ((c.pc + 2) % 65536 + 2) % 65536 = (c.pc + 4) % 65536; omega,
           rfl, rfl, rfl, rfl⟩
  · rw [CPU.step_eq c h, CPU.exec_jz_taken { c with pc := (c.pc + 2) % 65536 } (c.memory.read_word c.pc) hop hf]
  · rw [CPU.step_eq c h, CPU.exec_jnz_fall { c with pc := (c.pc + 2) % 65536 } (c.memory.read_word c.pc) hop hf]
    exact ⟨by show ((c.pc + 2) % 65536 + 2) % 65536 = (c.pc + 4) % 65536; omega,
           rfl, rfl, rfl, rfl⟩
  · rw [CPU.step_eq c h, CPU.exec_jnz_taken { c with pc := (c.pc + 2) % 65536 } (c.memory.read_word c.pc) hop hf]
  · rw [CPU.step_eq c h, CPU.exec_jc_fall { c with pc := (c.pc + 2) % 65536 } (c.memory.read_word c.pc) hop hf]
    exact ⟨by show ((c.pc + 2) % 65536 + 2) % 65536 = (c.pc + 4) % 65536; omega,
           rfl, rfl, rfl, rfl⟩
  · rw [CPU.step_eq c h, CPU.exec_jc_taken { c with pc := (c.pc + 2) % 65536 } (c.memory.read_word c.pc) hop hf]
  · rw [CPU.step_eq c h, CPU.exec_jnc_fall { c with pc := (c.pc + 2) % 65536 } (c.memory.read_word c.pc) hop hf]
    exact ⟨by show ((c.pc + 2) % 65536 + 2) % 65536 = (c.pc + 4) % 65536; omega,
           rfl, rfl, rfl, rfl⟩
  · rw [CPU.step_eq c h, CPU.exec_jnc_taken { c with pc := (c.pc + 2) % 65536 } (c.memory.read_word c.pc) hop hf]
  · rw [CPU.step_eq c h, CPU.exec_jn_fall { c with pc := (c.pc + 2) % 65536 } (c.memory.read_word c.pc) hop hf]
    exact ⟨by show ((c.pc + 2) % 65536 + 2) % 65536 = (c.pc + 4) % 65536; omega,
           rfl, rfl, rfl, rfl⟩
  · rw [CPU.step_eq c h, CPU.exec_jn_taken { c with pc := (c.pc + 2) % 65536 } (c.memory.read_word c.pc) hop hf]

/-- C6 witness: `JZ 0x0040` with Z clear falls through to PC = 4; with
Z set it jumps to 0x0040. -/
theorem cond_jump_semantics_witness :
    (CPU.init jzMem).step.pc = 4 ∧
    ({ CPU.init jzMem with flags := 1 } : CPU).step.pc = 0x40 :=
  ⟨((cond_jump_semantics (CPU.init jzMem) rfl).1 (by decide)).1 (by decide) |>.1,
   ((cond_jump_semantics { CPU.init jzMem with flags := 1 } rfl).1 (by decide)).2
     (by decide)⟩

/-! ## C4: CALL / RET round trip -/

/-- The concrete machine for the C4 witness. -/
def callCPU : CPU := CPU.init callMem

set_option maxRecDepth 8192 in
set_option maxHeartbeats 1000000 in
/-- C4: executing `CALL` pushes the post-address-fetch PC (start of the
CALL plus 4) at SP−2 and jumps to the trailing address word; a `RET`
executed next with the stack untouched returns to start+4 and restores
SP.  The two stack byte cells must avoid the console port, where stores
are discarded. -/
theorem call_ret_roundtrip (c : CPU)
    (hh : c.halted = false) (hsp : c.sp < 65536)
    (hop : GET_OPCODE (c.memory.read_word c.pc) = OP_CALL)
    (hs1 : (c.sp + 65534) % 65536 ≠ 0xF000)
    (hs2 : (c.sp + 65535) % 65536 ≠ 0xF000) :
    c.step.sp = (c.sp + 65534) % 65536 ∧
    c.step.memory.read_word c.step.sp = (c.pc + 4) % 65536 ∧
    c.step.pc = c.memory.read_word ((c.pc + 2) % 65536) ∧
    c.step.halted = false ∧
    (GET_OPCODE (c.step.memory.read_word c.step.pc) = OP_RET →
      c.step.step.pc = (c.pc + 4) % 65536 ∧ c.step.step.sp = c.sp) := by
  have hstep : c.step =
      { c with pc := c.memory.read_word ((c.pc + 2) % 65536),
               sp := (c.sp + 65534) % 65536,
               instruction_count := c.instruction_count + 1,
               memory := c.memory.write_word ((c.sp + 65534) % 65536)
                           (((c.pc + 2) % 65536 + 2) % 65536) } := by
    rw [CPU.step_eq c hh,
        CPU.exec_call { c with pc := (c.pc + 2) % 65536 } (c.memory.read_word c.pc) hop]
  have hv : ((c.pc + 2) % 65536 + 2) % 65536 = (c.pc + 4) % 65536 := by omega
  have hvlt : (c.pc + 4) % 65536 < 65536 := Nat.mod_lt _ (by norm_num)
  have hsp1 : (c.sp + 65534) % 65536 < 65536 := Nat.mod_lt _ (by norm_num)
  have hread : (c.memory.write_word ((c.sp + 65534) % 65536)
                  ((c.pc + 4) % 65536)).read_word ((c.sp + 65534) % 65536) =
               (c.pc + 4) % 65536 := by
    apply Memory.read_word_write_word _ _ _ hvlt
    · rw [Nat.mod_eq_of_lt hsp1]
      simpa [IO_CONSOLE_OUT] using hs1
    · have heq : ((c.sp + 65534) % 65536 + 1) % 65536 = (c.sp + 65535) % 65536 := by omega
      rw [heq]
      simpa [IO_CONSOLE_OUT] using hs2
  have hsp2 : c.step.sp = (c.sp + 65534) % 65536 := by rw [hstep]
  have hpc2 : c.step.pc = c.memory.read_word ((c.pc + 2) % 65536) := by rw [hstep]
  have hh2 : c.step.halted = false := by rw [hstep]; exact hh
  have hmem2 : c.step.memory = c.memory.write_word ((c.sp + 65534) % 65536)
      (((c.pc + 2) % 65536 + 2) % 65536) := by rw [hstep]
  have hmemread : c.step.memory.read_word c.step.sp = (c.pc + 4) % 65536 := by
    rw [hmem2, hsp2, hv]
    exact hread
  refine ⟨hsp2, hmemread, hpc2, hh2, ?_⟩
  intro hret
  have hss : c.step.step =
      { c.step with pc := c.step.memory.read_word c.step.sp,
                    sp := (c.step.sp + 2) % 65536,
                    instruction_count := c.step.instruction_count + 1 } := by
    rw [CPU.step_eq c.step hh2,
        CPU.exec_ret { c.step with pc := (c.step.pc + 2) % 65536 }
          (c.step.memory.read_word c.step.pc) hret]
  have hpc3 : c.step.step.pc = c.step.memory.read_word c.step.sp := by rw [hss]
  have hsp3 : c.step.step.sp = (c.step.sp + 2) % 65536 := by rw [hss]
  constructor
  · rw [hpc3]
    exact hmemread
  · rw [hsp3, hsp2]
    omega

/-- C4 witness: `CALL 0x0010` at 0x0000 then `RET` at 0x0010 on a reset
machine. -/
theorem call_ret_roundtrip_witness :
    callCPU.step.sp = 0xFFFD ∧
    callCPU.step.memory.read_word callCPU.step.sp = 4 ∧
    callCPU.step.pc = 0x10 ∧
    callCPU.step.halted = false ∧
    callCPU.step.step.pc = 4 ∧ callCPU.step.step.sp = 0xFFFF := by
  have h := call_ret_roundtrip callCPU rfl (by decide) (by decide) (by decide) (by decide)
  have h5 := h.2.2.2.2 (by decide)
  exact ⟨h.1, h.2.1, h.2.2.1, h.2.2.2.1, h5.1, h5.2⟩
